import Mathlib

/-!
Shallow embedding of the quantized FastGRNN inference engine declared in
`c_reference/include/quantized_fastgrnn.h`.

The header is the source of truth for the data model (parameter, scale and
buffer structures), the entry-point signatures, and the documented result
codes.  The implementation file itself is not part of the sources, so the
bodies of the three entry points and of the fixed-point primitives they use
are modelled from the specification (marked `Modelled from the spec:` below).

Machine integers are modelled as unbounded `Int` with explicit arithmetic
right shifts (`shr`) at every demotion point; the saturating wrap-around
behaviour of the underlying platform intrinsics is declared out of scope by
the specification (it treats them as a given integer-math library), so sums
are accumulated exactly here.  Scratch buffers are write-before-read
(contents before the call are undefined per the spec), so only their
presence (`Option`) is tracked.
-/

namespace QFastGRNN

/-- Result code from `quantized_fastgrnn.h`: a precompute buffer is missing. -/
def ERR_PRECOMP_NOT_INIT : Int := -1

/-- Result code from `quantized_fastgrnn.h`: the low-rank W scratch is missing. -/
def ERR_TEMPLRW_NOT_INIT : Int := -2

/-- Result code from `quantized_fastgrnn.h`: the low-rank U scratch is missing. -/
def ERR_TEMPLRU_NOT_INIT : Int := -3

/-- Result code from `quantized_fastgrnn.h`: the normalization buffer is missing. -/
def ERR_NORMFEATURES_NOT_INIT : Int := -4

/-- Arithmetic right shift by `s` bits: floor division by `2 ^ s`.  This is the
demotion primitive of the fixed-point pipeline (spec 4.1: truncation toward
the target scale via arithmetic right shift). -/
def shr (x : Int) (s : Nat) : Int := x / 2 ^ s

/-- Read entry `i` of a vector; out-of-range reads default to 0.  (C pointers
carry no bounds; the embedding totalises reads.) -/
def vget (v : List Int) (i : Nat) : Int := v.getD i 0

/-- The `len` entries of `v` starting at `start`: models C pointer arithmetic
`v + start` on a vector consumed with length `len`. -/
def slice (v : List Int) (start len : Nat) : List Int :=
  (List.range len).map fun j => vget v (start + j)

/-- Modelled from the spec (4.1, scale-aligned addition; the utility library
`quantized_utils.h` is not among the sources): pointwise
`((a[i] >> sa) + (b[i] >> sb)) >> sout >> sdem`. -/
def q15_v_add (a b : List Int) (len sa sb sout sdem : Nat) : List Int :=
  (List.range len).map fun i =>
    shr (shr (shr (vget a i) sa + shr (vget b i) sb) sout) sdem

/-- Modelled from the spec (4.1): pointwise scale-aligned subtraction
`((a[i] >> sa) - (b[i] >> sb)) >> sout`. -/
def q15_v_sub (a b : List Int) (len sa sb sout : Nat) : List Int :=
  (List.range len).map fun i =>
    shr (shr (vget a i) sa - shr (vget b i) sb) sout

/-- Modelled from the spec (4.1): pointwise product demoted by the sum of the
two operand scale deltas. -/
def q15_v_hadamard (a b : List Int) (len sa sb : Nat) : List Int :=
  (List.range len).map fun i => shr (vget a i * vget b i) (sa + sb)

/-- Modelled from the spec (4.1): scalar-minus-vector, scale-aligned. -/
def q15_v_scalar_sub (s : Int) (v : List Int) (len ss sv sout : Nat) : List Int :=
  (List.range len).map fun i => shr (shr s ss - shr (vget v i) sv) sout

/-- Modelled from the spec (4.1): scalar-times-vector, demoted by the sum of
the two operand scale deltas. -/
def q15_v_scalar_mul (s : Int) (v : List Int) (len ss sv : Nat) : List Int :=
  (List.range len).map fun i => shr (s * vget v i) (ss + sv)

/-- Modelled from the spec (4.1): scalar-plus-vector, scale-aligned. -/
def q15_v_scalar_add (s : Int) (v : List Int) (len ss sv sout : Nat) : List Int :=
  (List.range len).map fun i => shr (shr s ss + shr (vget v i) sv) sout

/-- Modelled from the spec (4.2): the computed sigmoid approximator.  A
piecewise fixed-point approximation: inputs at or beyond the saturation
limit clamp to the extreme outputs `0` and `qone` (the fixed-point one of
the scale table); the interior segment is the linear map `x / d + a` built
from the `div` and `add` constants of the scale table, with the
input/output rescaling folded into those constants. -/
def q15_sigmoid_computed (d a limit qone x : Int) : Int :=
  if x ≤ -limit then 0
  else if limit ≤ x then qone
  else x / d + a

/-- Modelled from the spec (4.2): the computed tanh approximator.  Inputs at
or beyond the saturation limit clamp to the extreme outputs `-limit` and
`limit` (the saturation limit expressed at the tanh output scale); interior
inputs pass through at the declared scale. -/
def q15_tanh_computed (limit x : Int) : Int :=
  if x ≤ -limit then -limit
  else if limit ≤ x then limit
  else x

/-- Modelled from the spec (4.2): vectorised sigmoid.  The `useTable` flag of
the scale table selects the shared read-only lookup table `tbl` (a global in
the C sources, passed explicitly here) over the computed approximation. -/
def q15_v_sigmoid (v : List Int) (len : Nat) (d a limit qone : Int)
    (useTable : Nat) (tbl : Int → Int) : List Int :=
  (List.range len).map fun i =>
    if useTable ≠ 0 then tbl (vget v i) else q15_sigmoid_computed d a limit qone (vget v i)

/-- Modelled from the spec (4.2): vectorised tanh, table-based or computed. -/
def q15_v_tanh (v : List Int) (len : Nat) (limit : Int)
    (useTable : Nat) (tbl : Int → Int) : List Int :=
  (List.range len).map fun i =>
    if useTable ≠ 0 then tbl (vget v i) else q15_tanh_computed limit (vget v i)

/-- The exactly-accumulated dot product of row `i` of a flat row-major
`_ x ncols` matrix with a vector: the loop body shared by the dense and
low-rank multiplies. -/
def q15_dotRow (M x : List Int) (ncols i : Nat) : Int :=
  ((List.range ncols).map fun j => vget M (i * ncols + j) * vget x j).sum

/-- Modelled from the spec (4.3): dense matrix-vector multiply.  `M` is a flat
row-major `nrows x ncols` matrix; the exactly-accumulated row sum is demoted
by the declared matrix, vector and output scale deltas. -/
def q15_m_mulvec (M x : List Int) (nrows ncols scmat scvec scret : Nat) : List Int :=
  (List.range nrows).map fun i => shr (q15_dotRow M x ncols i) (scmat + scvec + scret)

/-- Modelled from the spec (4.3): sparse matrix-vector multiply.  The matrix
is given as parallel index and value arrays; each value is multiplied by the
input entry selected by its column index and accumulated into the output
position selected by its row index.  (The C header stores row indices with
an implicit column convention; the embedding makes the column explicit.) -/
def q15_m_sparse_mulvec (ids : List (Nat × Nat)) (vals x : List Int)
    (nrows scmat scvec scret : Nat) : List Int :=
  (List.range nrows).map fun i =>
    shr ((((ids.zip vals).filter fun e => e.1.1 == i).map fun e =>
        e.2 * vget x e.1.2).sum) (scmat + scvec + scret)

/-- Modelled from the spec (4.3): low-rank matrix-vector multiply.  `Mfst`
(`rank x ncols`) first projects `x` into a rank-sized intermediate at its own
output scale (the tempLRW/tempLRU scratch of the C code), then `Msnd`
(`nrows x rank`) projects the intermediate into the output. -/
def q15_lr_mulvec (Mfst Msnd x : List Int) (nrows rank ncols : Nat)
    (sm1 sv1 sr1 sm2 sv2 sr2 : Nat) : List Int :=
  q15_m_mulvec Msnd (q15_m_mulvec Mfst x rank ncols sm1 sv1 sr1) nrows rank sm2 sv2 sr2

/-- The canonical sparse listing of row `i` of a flat `_ x ncols` matrix:
its nonzero entries, in column order, as ((row, col), value). -/
def sparseRowEntries (M : List Int) (ncols i : Nat) : List ((Nat × Nat) × Int) :=
  (List.range ncols).filterMap fun j =>
    if vget M (i * ncols + j) = 0 then none else some ((i, j), vget M (i * ncols + j))

/-- The canonical sparse listing of all nonzero entries of a flat row-major
`nrows x ncols` matrix, in row-major order. -/
def sparseEntries (M : List Int) (nrows ncols : Nat) : List ((Nat × Nat) × Int) :=
  ((List.range nrows).map (sparseRowEntries M ncols)).flatten

/-- Mirrors `Q15_FastGRNN_Params` from `quantized_fastgrnn.h`.  `Wids`/`Wvals`
(resp. `Uids`/`Uvals`) are the sparse index/value arrays; `none` models the
NULL pointers that select dense-mode operation for that matrix field. -/
structure Q15_FastGRNN_Params where
  mean : List Int
  stdDev : List Int
  W : List Int
  Wids : Option (List (Nat × Nat))
  Wvals : Option (List Int)
  U : List Int
  Uids : Option (List (Nat × Nat))
  Uvals : Option (List Int)
  Bg : List Int
  Bh : List Int
  sigmoid_zeta : Int
  sigmoid_nu : Int

/-- Mirrors `Q15_FastGRNN_Scales` from `quantized_fastgrnn.h` (same field
order).  `SCALE_T` exponents become `Nat` shift amounts; the `Q15_T`
constants become `Int`. -/
structure Q15_FastGRNN_Scales where
  input : Nat
  mean : Nat
  meanSub : Nat
  stdDev : Nat
  normFeaturesHDStdDev : Nat
  w : Nat
  normFeaturesMVW : Nat
  mVWOut : Nat
  u : Nat
  hiddenStateMVU : Nat
  mVUOut : Nat
  mV1AddMV2 : Nat
  mV2AddMV1 : Nat
  mV1AddMV2Out : Nat
  mV1AddMV2Demote : Nat
  pC1AddBg : Nat
  bg : Nat
  pC1AddBgOut : Nat
  pC1AddBgDemote : Nat
  sigmoidScaleIn : Nat
  sigmoidScaleOut : Nat
  pC1AddBh : Nat
  bh : Nat
  pC1AddBhOut : Nat
  pC1AddBhDemote : Nat
  tanhScaleIn : Nat
  tanhScaleOut : Nat
  gateHDHiddenState : Nat
  hiddenStateHDGate : Nat
  qOneScale : Nat
  qOneSubGate : Nat
  qOneSubGateOut : Nat
  sigmoidZeta : Nat
  sigmoidZetaMulQOneSubGate : Nat
  sigmoidNu : Nat
  sigmoidNuAddQOneSubGate : Nat
  sigmoidNuAddQOneSubGateOut : Nat
  sigmoidNuAddQOneSubGateHDUpdate : Nat
  updateHDSigmoidNuAddQOneSubGate : Nat
  pC3AddPC1 : Nat
  pC1AddPC3 : Nat
  hiddenStateOut : Nat
  hiddenStateDemote : Nat
  div : Int
  add : Int
  sigmoidLimit : Int
  qOne : Int
  useTableSigmoid : Nat
  useTableTanH : Nat

/-- Mirrors `Q15_FastGRNN_Buffers` from `quantized_fastgrnn.h`.  Scratch
contents before a call are undefined (spec 3), so only presence is tracked;
`none` models a NULL pointer. -/
structure Q15_FastGRNN_Buffers where
  preComp1 : Option (List Int)
  preComp2 : Option (List Int)
  preComp3 : Option (List Int)
  normFeatures : Option (List Int)

/-- Mirrors `Q15_FastGRNN_LR_Params` from `quantized_fastgrnn.h`: W and U are
each given as a low-rank factor pair. -/
structure Q15_FastGRNN_LR_Params where
  mean : List Int
  stdDev : List Int
  W1 : List Int
  W2 : List Int
  wRank : Nat
  U1 : List Int
  U2 : List Int
  uRank : Nat
  Bg : List Int
  Bh : List Int
  sigmoid_zeta : Int
  sigmoid_nu : Int

/-- Mirrors `Q15_FastGRNN_LR_Scales` from `quantized_fastgrnn.h` (same field
order). -/
structure Q15_FastGRNN_LR_Scales where
  input : Nat
  mean : Nat
  meanSub : Nat
  stdDev : Nat
  normFeaturesHDStdDev : Nat
  w1 : Nat
  normFeaturesMVW1 : Nat
  mVW1Out : Nat
  w2 : Nat
  tempLRW : Nat
  mVW2Out : Nat
  u1 : Nat
  hiddenStateMVU1 : Nat
  mVU1Out : Nat
  u2 : Nat
  tempLRU : Nat
  mVU2Out : Nat
  mV2AddMV4 : Nat
  mV4AddMV2 : Nat
  mV2AddMV4Out : Nat
  mV2AddMV4Demote : Nat
  pC1AddBg : Nat
  bg : Nat
  pC1AddBgOut : Nat
  pC1AddBgDemote : Nat
  sigmoidScaleIn : Nat
  sigmoidScaleOut : Nat
  pC1AddBh : Nat
  bh : Nat
  pC1AddBhOut : Nat
  pC1AddBhDemote : Nat
  tanhScaleIn : Nat
  tanhScaleOut : Nat
  gateHDHiddenState : Nat
  hiddenStateHDGate : Nat
  qOneScale : Nat
  qOneSubGate : Nat
  qOneSubGateOut : Nat
  sigmoidZeta : Nat
  sigmoidZetaMulQOneSubGate : Nat
  sigmoidNu : Nat
  sigmoidNuAddQOneSubGate : Nat
  sigmoidNuAddQOneSubGateOut : Nat
  sigmoidNuAddQOneSubGateHDUpdate : Nat
  updateHDSigmoidNuAddQOneSubGate : Nat
  pC3AddPC1 : Nat
  pC1AddPC3 : Nat
  hiddenStateOut : Nat
  hiddenStateDemote : Nat
  sigmoidLimit : Int
  div : Int
  add : Int
  qOne : Int
  useTableSigmoid : Nat
  useTableTanH : Nat

/-- Mirrors `Q15_FastGRNN_LR_Buffers` from `quantized_fastgrnn.h`. -/
structure Q15_FastGRNN_LR_Buffers where
  preComp1 : Option (List Int)
  preComp2 : Option (List Int)
  preComp3 : Option (List Int)
  tempLRW : Option (List Int)
  tempLRU : Option (List Int)
  normFeatures : Option (List Int)

/-- Mirrors `Q7xQ15_FastGRNN_Params` from `quantized_fastgrnn.h` (8-bit
normalization statistics, 16-bit weights; in the unbounded-`Int` embedding
the two precisions differ only in range, which the model does not bound). -/
structure Q7xQ15_FastGRNN_Params where
  mean : List Int
  stdDev : List Int
  W : List Int
  Wids : Option (List (Nat × Nat))
  Wvals : Option (List Int)
  U : List Int
  Uids : Option (List (Nat × Nat))
  Uvals : Option (List Int)
  Bg : List Int
  Bh : List Int
  sigmoid_zeta : Int
  sigmoid_nu : Int

/-- Mirrors `Q7xQ15_FastGRNN_Buffers` from `quantized_fastgrnn.h`. -/
structure Q7xQ15_FastGRNN_Buffers where
  preComp1 : Option (List Int)
  preComp2 : Option (List Int)
  preComp3 : Option (List Int)
  normFeatures : Option (List Int)

/-- Modelled from the spec (4.3): the W-projection of the dense/sparse entry
point.  NULL (`none`) index or value arrays select dense mode for W. -/
def q15_projW (p : Q15_FastGRNN_Params) (feats : List Int)
    (hiddenDims inputDims : Nat) (sc : Q15_FastGRNN_Scales) : List Int :=
  match p.Wids, p.Wvals with
  | some ids, some vals =>
      q15_m_sparse_mulvec ids vals feats hiddenDims sc.w sc.normFeaturesMVW sc.mVWOut
  | _, _ => q15_m_mulvec p.W feats hiddenDims inputDims sc.w sc.normFeaturesMVW sc.mVWOut

/-- Modelled from the spec (4.3): the U-projection of the dense/sparse entry
point.  NULL (`none`) index or value arrays select dense mode for U. -/
def q15_projU (p : Q15_FastGRNN_Params) (h : List Int)
    (hiddenDims : Nat) (sc : Q15_FastGRNN_Scales) : List Int :=
  match p.Uids, p.Uvals with
  | some ids, some vals =>
      q15_m_sparse_mulvec ids vals h hiddenDims sc.u sc.hiddenStateMVU sc.mVUOut
  | _, _ => q15_m_mulvec p.U h hiddenDims hiddenDims sc.u sc.hiddenStateMVU sc.mVUOut

/-- Modelled from the spec (4.4): the features consumed at step `t` - the
mean-subtracted, inverse-standard-deviation-scaled input slice when
normalization is requested, the raw slice otherwise.  `stdDev` is sized
`inputDims * steps` (header), hence the per-step offset. -/
def q15_fastgrnn_features (inputDims : Nat) (p : Q15_FastGRNN_Params)
    (sc : Q15_FastGRNN_Scales) (normalize : Bool) (t : Nat) (x : List Int) : List Int :=
  if normalize then
    q15_v_hadamard (slice p.stdDev (t * inputDims) inputDims)
      (q15_v_sub x p.mean inputDims sc.input sc.mean sc.meanSub)
      inputDims sc.stdDev sc.normFeaturesHDStdDev
  else x

/-- Modelled from the spec (4.5 steps 2-4): the shared pre-activation of step
`t` - the W-projection of the features combined at aligned scales with the
U-projection of the previous hidden state. -/
def q15_fastgrnn_preAct (hiddenDims inputDims : Nat) (p : Q15_FastGRNN_Params)
    (sc : Q15_FastGRNN_Scales) (normalize : Bool) (t : Nat) (x h : List Int) : List Int :=
  q15_v_add (q15_projW p (q15_fastgrnn_features inputDims p sc normalize t x) hiddenDims inputDims sc)
    (q15_projU p h hiddenDims sc)
    hiddenDims sc.mV1AddMV2 sc.mV2AddMV1 sc.mV1AddMV2Out sc.mV1AddMV2Demote

/-- Modelled from the spec (4.5 step 5): the gate vector - gate bias added to
the pre-activation at aligned scales, then the sigmoid approximator. -/
def q15_fastgrnn_gate (hiddenDims inputDims : Nat) (p : Q15_FastGRNN_Params)
    (sc : Q15_FastGRNN_Scales) (sigTable : Int → Int) (normalize : Bool)
    (t : Nat) (x h : List Int) : List Int :=
  q15_v_sigmoid
    (q15_v_add (q15_fastgrnn_preAct hiddenDims inputDims p sc normalize t x h) p.Bg
      hiddenDims sc.pC1AddBg sc.bg sc.pC1AddBgOut sc.pC1AddBgDemote)
    hiddenDims sc.div sc.add sc.sigmoidLimit sc.qOne sc.useTableSigmoid sigTable

/-- Modelled from the spec (4.5 step 6): the candidate-update vector -
candidate bias added to the pre-activation at aligned scales, then the tanh
approximator. -/
def q15_fastgrnn_candidate (hiddenDims inputDims : Nat) (p : Q15_FastGRNN_Params)
    (sc : Q15_FastGRNN_Scales) (tanhTable : Int → Int) (normalize : Bool)
    (t : Nat) (x h : List Int) : List Int :=
  q15_v_tanh
    (q15_v_add (q15_fastgrnn_preAct hiddenDims inputDims p sc normalize t x h) p.Bh
      hiddenDims sc.pC1AddBh sc.bh sc.pC1AddBhOut sc.pC1AddBhDemote)
    hiddenDims sc.sigmoidLimit sc.useTableTanH tanhTable

/-- Modelled from the spec (4.5 steps 1-8): one time step of the dense/sparse
16-bit cell.  The new hidden state is the fixed-point blend
`gate * old_h + (zeta * (1 - gate) + nu) * candidate`, every multiply and
add scale-aligned per the scale table and the result demoted to the declared
hidden-state output scale. -/
def q15_fastgrnn_step (hiddenDims inputDims : Nat) (p : Q15_FastGRNN_Params)
    (sc : Q15_FastGRNN_Scales) (sigTable tanhTable : Int → Int) (normalize : Bool)
    (t : Nat) (x h : List Int) : List Int :=
  q15_v_add
    (q15_v_hadamard (q15_fastgrnn_gate hiddenDims inputDims p sc sigTable normalize t x h)
      h hiddenDims sc.gateHDHiddenState sc.hiddenStateHDGate)
    (q15_v_hadamard
      (q15_v_scalar_add p.sigmoid_nu
        (q15_v_scalar_mul p.sigmoid_zeta
          (q15_v_scalar_sub sc.qOne
            (q15_fastgrnn_gate hiddenDims inputDims p sc sigTable normalize t x h)
            hiddenDims sc.qOneScale sc.qOneSubGate sc.qOneSubGateOut)
          hiddenDims sc.sigmoidZeta sc.sigmoidZetaMulQOneSubGate)
        hiddenDims sc.sigmoidNu sc.sigmoidNuAddQOneSubGate sc.sigmoidNuAddQOneSubGateOut)
      (q15_fastgrnn_candidate hiddenDims inputDims p sc tanhTable normalize t x h)
      hiddenDims sc.sigmoidNuAddQOneSubGateHDUpdate sc.updateHDSigmoidNuAddQOneSubGate)
    hiddenDims sc.pC3AddPC1 sc.pC1AddPC3 sc.hiddenStateOut sc.hiddenStateDemote

/-- The data index consumed at loop iteration `t` (spec 4.5 step 9): forward
order walks 0..steps-1, backward order walks steps-1..0. -/
def q15_stepIndex (steps : Nat) (backward : Bool) (t : Nat) : Nat :=
  if backward then steps - 1 - t else t

/-- The multi-step trajectory of the dense/sparse cell: the loop of spec 4.5
step 9, consuming input slice `steps-1-t` instead of `t` on a backward pass. -/
def q15_fastgrnn_loop (hiddenDims inputDims steps : Nat) (p : Q15_FastGRNN_Params)
    (sc : Q15_FastGRNN_Scales) (sigTable tanhTable : Int → Int)
    (backward normalize : Bool) (input h0 : List Int) : List Int :=
  (List.range steps).foldl
    (fun h t =>
      q15_fastgrnn_step hiddenDims inputDims p sc sigTable tanhTable normalize
        (q15_stepIndex steps backward t)
        (slice input (q15_stepIndex steps backward t * inputDims) inputDims) h)
    h0

/-- Entry point `q15_fastgrnn` of `quantized_fastgrnn.h`.  The result pair is
(result code, final hidden state).  Modelled from the spec (4.5 error
policy): every buffer required by the configuration is checked, in the
documented order, before any mutation of the hidden state; the documented
result codes are those of the header. -/
def q15_fastgrnn (hiddenState : List Int) (hiddenDims : Nat) (input : List Int)
    (inputDims steps : Nat) (params : Q15_FastGRNN_Params)
    (buffers : Q15_FastGRNN_Buffers) (scales : Q15_FastGRNN_Scales)
    (sigTable tanhTable : Int → Int) (backward normalize : Bool) : Int × List Int :=
  if buffers.preComp1.isNone then (ERR_PRECOMP_NOT_INIT, hiddenState)
  else if buffers.preComp2.isNone then (ERR_PRECOMP_NOT_INIT, hiddenState)
  else if buffers.preComp3.isNone then (ERR_PRECOMP_NOT_INIT, hiddenState)
  else if normalize && buffers.normFeatures.isNone then (ERR_NORMFEATURES_NOT_INIT, hiddenState)
  else (0, q15_fastgrnn_loop hiddenDims inputDims steps params scales sigTable tanhTable
    backward normalize input hiddenState)

/-- Modelled from the spec (4.4): the features of step `t` for the low-rank
entry point. -/
def q15_fastgrnn_lr_features (inputDims : Nat) (p : Q15_FastGRNN_LR_Params)
    (sc : Q15_FastGRNN_LR_Scales) (normalize : Bool) (t : Nat) (x : List Int) : List Int :=
  if normalize then
    q15_v_hadamard (slice p.stdDev (t * inputDims) inputDims)
      (q15_v_sub x p.mean inputDims sc.input sc.mean sc.meanSub)
      inputDims sc.stdDev sc.normFeaturesHDStdDev
  else x

/-- Modelled from the spec (4.3, 4.5): the shared pre-activation of the
low-rank cell - W1 projects the features into the wRank-sized tempLRW
scratch and W2 projects that into `preComp1` (the scale-table names `w1`,
`normFeaturesMVW1`, `w2`, `tempLRW` fix this application order); likewise
U1/U2 for the previous hidden state through tempLRU. -/
def q15_fastgrnn_lr_preAct (hiddenDims inputDims : Nat) (p : Q15_FastGRNN_LR_Params)
    (sc : Q15_FastGRNN_LR_Scales) (normalize : Bool) (t : Nat) (x h : List Int) : List Int :=
  q15_v_add
    (q15_lr_mulvec p.W1 p.W2 (q15_fastgrnn_lr_features inputDims p sc normalize t x)
      hiddenDims p.wRank inputDims sc.w1 sc.normFeaturesMVW1 sc.mVW1Out sc.w2 sc.tempLRW sc.mVW2Out)
    (q15_lr_mulvec p.U1 p.U2 h hiddenDims p.uRank hiddenDims
      sc.u1 sc.hiddenStateMVU1 sc.mVU1Out sc.u2 sc.tempLRU sc.mVU2Out)
    hiddenDims sc.mV2AddMV4 sc.mV4AddMV2 sc.mV2AddMV4Out sc.mV2AddMV4Demote

/-- Modelled from the spec (4.5 steps 1-8): one time step of the low-rank
16-bit cell. -/
def q15_fastgrnn_lr_step (hiddenDims inputDims : Nat) (p : Q15_FastGRNN_LR_Params)
    (sc : Q15_FastGRNN_LR_Scales) (sigTable tanhTable : Int → Int) (normalize : Bool)
    (t : Nat) (x h : List Int) : List Int :=
  let preAct := q15_fastgrnn_lr_preAct hiddenDims inputDims p sc normalize t x h
  let gate := q15_v_sigmoid
    (q15_v_add preAct p.Bg hiddenDims sc.pC1AddBg sc.bg sc.pC1AddBgOut sc.pC1AddBgDemote)
    hiddenDims sc.div sc.add sc.sigmoidLimit sc.qOne sc.useTableSigmoid sigTable
  let cand := q15_v_tanh
    (q15_v_add preAct p.Bh hiddenDims sc.pC1AddBh sc.bh sc.pC1AddBhOut sc.pC1AddBhDemote)
    hiddenDims sc.sigmoidLimit sc.useTableTanH tanhTable
  q15_v_add
    (q15_v_hadamard gate h hiddenDims sc.gateHDHiddenState sc.hiddenStateHDGate)
    (q15_v_hadamard
      (q15_v_scalar_add p.sigmoid_nu
        (q15_v_scalar_mul p.sigmoid_zeta
          (q15_v_scalar_sub sc.qOne gate hiddenDims sc.qOneScale sc.qOneSubGate sc.qOneSubGateOut)
          hiddenDims sc.sigmoidZeta sc.sigmoidZetaMulQOneSubGate)
        hiddenDims sc.sigmoidNu sc.sigmoidNuAddQOneSubGate sc.sigmoidNuAddQOneSubGateOut)
      cand hiddenDims sc.sigmoidNuAddQOneSubGateHDUpdate sc.updateHDSigmoidNuAddQOneSubGate)
    hiddenDims sc.pC3AddPC1 sc.pC1AddPC3 sc.hiddenStateOut sc.hiddenStateDemote

/-- The multi-step trajectory of the low-rank cell. -/
def q15_fastgrnn_lr_loop (hiddenDims inputDims steps : Nat) (p : Q15_FastGRNN_LR_Params)
    (sc : Q15_FastGRNN_LR_Scales) (sigTable tanhTable : Int → Int)
    (backward normalize : Bool) (input h0 : List Int) : List Int :=
  (List.range steps).foldl
    (fun h t =>
      q15_fastgrnn_lr_step hiddenDims inputDims p sc sigTable tanhTable normalize
        (q15_stepIndex steps backward t)
        (slice input (q15_stepIndex steps backward t * inputDims) inputDims) h)
    h0

/-- Entry point `q15_fastgrnn_lr` of `quantized_fastgrnn.h`.  Modelled from
the spec (4.5 error policy) with the header's documented result codes:
preComp1/2/3 each yield `ERR_PRECOMP_NOT_INIT`, the low-rank scratches yield
their own codes, and the normalization buffer is checked only when
`normalize` is set. -/
def q15_fastgrnn_lr (hiddenState : List Int) (hiddenDims : Nat) (input : List Int)
    (inputDims steps : Nat) (params : Q15_FastGRNN_LR_Params)
    (buffers : Q15_FastGRNN_LR_Buffers) (scales : Q15_FastGRNN_LR_Scales)
    (sigTable tanhTable : Int → Int) (backward normalize : Bool) : Int × List Int :=
  if buffers.preComp1.isNone then (ERR_PRECOMP_NOT_INIT, hiddenState)
  else if buffers.preComp2.isNone then (ERR_PRECOMP_NOT_INIT, hiddenState)
  else if buffers.preComp3.isNone then (ERR_PRECOMP_NOT_INIT, hiddenState)
  else if buffers.tempLRW.isNone then (ERR_TEMPLRW_NOT_INIT, hiddenState)
  else if buffers.tempLRU.isNone then (ERR_TEMPLRU_NOT_INIT, hiddenState)
  else if normalize && buffers.normFeatures.isNone then (ERR_NORMFEATURES_NOT_INIT, hiddenState)
  else (0, q15_fastgrnn_lr_loop hiddenDims inputDims steps params scales sigTable tanhTable
    backward normalize input hiddenState)

/-- The 8-bit-input parameters viewed as 16-bit-cell parameters: in the
unbounded-`Int` embedding the two precisions share the recurrence (spec 9:
one generic primitive module instantiated per bit width). -/
def Q7xQ15_FastGRNN_Params.toQ15 (p : Q7xQ15_FastGRNN_Params) : Q15_FastGRNN_Params :=
  ⟨p.mean, p.stdDev, p.W, p.Wids, p.Wvals, p.U, p.Uids, p.Uvals, p.Bg, p.Bh,
    p.sigmoid_zeta, p.sigmoid_nu⟩

/-- Entry point `q7xq15_q15_fastgrnn` of `quantized_fastgrnn.h`: the
mixed-precision cell (8-bit input, 16-bit weights and hidden state).
Modelled from the spec (4.5) with the header's documented result codes. -/
def q7xq15_q15_fastgrnn (hiddenState : List Int) (hiddenDims : Nat) (input : List Int)
    (inputDims steps : Nat) (params : Q7xQ15_FastGRNN_Params)
    (buffers : Q7xQ15_FastGRNN_Buffers) (scales : Q15_FastGRNN_Scales)
    (sigTable tanhTable : Int → Int) (backward normalize : Bool) : Int × List Int :=
  if buffers.preComp1.isNone then (ERR_PRECOMP_NOT_INIT, hiddenState)
  else if buffers.preComp2.isNone then (ERR_PRECOMP_NOT_INIT, hiddenState)
  else if buffers.preComp3.isNone then (ERR_PRECOMP_NOT_INIT, hiddenState)
  else if normalize && buffers.normFeatures.isNone then (ERR_NORMFEATURES_NOT_INIT, hiddenState)
  else (0, q15_fastgrnn_loop hiddenDims inputDims steps params.toQ15 scales sigTable tanhTable
    backward normalize input hiddenState)

/-- A call's machine state: the hidden state together with the regions the C
signatures declare `const` (input, params, scales) and the caller-supplied
scratch buffers. -/
structure FastGRNN_CallState (P S B : Type) where
  hiddenState : List Int
  input : List Int
  params : P
  scales : S
  buffers : B

/-- The machine-state view of a `q15_fastgrnn` call: the header declares
`input`, `params` and `scales` as `const`, so a call rewrites only the
hidden state (and scratch contents, which carry no defined value). -/
def q15_fastgrnn_call
    (s : FastGRNN_CallState Q15_FastGRNN_Params Q15_FastGRNN_Scales Q15_FastGRNN_Buffers)
    (hiddenDims inputDims steps : Nat) (sigTable tanhTable : Int → Int)
    (backward normalize : Bool) :
    Int × FastGRNN_CallState Q15_FastGRNN_Params Q15_FastGRNN_Scales Q15_FastGRNN_Buffers :=
  let r := q15_fastgrnn s.hiddenState hiddenDims s.input inputDims steps s.params s.buffers
    s.scales sigTable tanhTable backward normalize
  (r.1, { s with hiddenState := r.2 })

/-- The machine-state view of a `q15_fastgrnn_lr` call. -/
def q15_fastgrnn_lr_call
    (s : FastGRNN_CallState Q15_FastGRNN_LR_Params Q15_FastGRNN_LR_Scales Q15_FastGRNN_LR_Buffers)
    (hiddenDims inputDims steps : Nat) (sigTable tanhTable : Int → Int)
    (backward normalize : Bool) :
    Int × FastGRNN_CallState Q15_FastGRNN_LR_Params Q15_FastGRNN_LR_Scales Q15_FastGRNN_LR_Buffers :=
  let r := q15_fastgrnn_lr s.hiddenState hiddenDims s.input inputDims steps s.params s.buffers
    s.scales sigTable tanhTable backward normalize
  (r.1, { s with hiddenState := r.2 })

/-- The machine-state view of a `q7xq15_q15_fastgrnn` call. -/
def q7xq15_q15_fastgrnn_call
    (s : FastGRNN_CallState Q7xQ15_FastGRNN_Params Q15_FastGRNN_Scales Q7xQ15_FastGRNN_Buffers)
    (hiddenDims inputDims steps : Nat) (sigTable tanhTable : Int → Int)
    (backward normalize : Bool) :
    Int × FastGRNN_CallState Q7xQ15_FastGRNN_Params Q15_FastGRNN_Scales Q7xQ15_FastGRNN_Buffers :=
  let r := q7xq15_q15_fastgrnn s.hiddenState hiddenDims s.input inputDims steps s.params s.buffers
    s.scales sigTable tanhTable backward normalize
  (r.1, { s with hiddenState := r.2 })

/-- A trivial lookup table used to instantiate the table parameters of
concrete evaluations. -/
def zeroTable : Int → Int := fun _ => 0

/-- Concrete dense/sparse 16-bit parameters for concrete evaluations. -/
def testParams : Q15_FastGRNN_Params :=
  ⟨[], [], [], none, none, [], none, none, [], [], 0, 0⟩

/-- Concrete parameters whose W is carried sparsely: the single nonzero entry
of the dense 1x1 matrix [2]; the dense W field holds an unrelated value to
exhibit that sparse mode ignores it, and U is dense (`Uids = none`). -/
def testSparseParams : Q15_FastGRNN_Params :=
  ⟨[], [], [99], some [(0, 0)], some [2], [7], none, none, [0], [0], 1, 1⟩

/-- Concrete dense/sparse 16-bit scale table for concrete evaluations. -/
def testScales : Q15_FastGRNN_Scales :=
  ⟨0, 0, 0, 0, 0, 0, 0, 0, 0, 0, 0, 0, 0, 0, 0, 0, 0, 0, 0, 0, 0, 0, 0, 0, 0,
   0, 0, 0, 0, 0, 0, 0, 0, 0, 0, 0, 0, 0, 0, 0, 0, 0, 0, 1, 0, 1, 1, 0, 0⟩

/-- All four dense/sparse scratch buffers present. -/
def testBuffersFull : Q15_FastGRNN_Buffers :=
  ⟨some [], some [], some [], some []⟩

/-- Concrete low-rank parameters for concrete evaluations. -/
def testLRParams : Q15_FastGRNN_LR_Params :=
  ⟨[], [], [], [], 0, [], [], 0, [], [], 0, 0⟩

/-- Concrete low-rank scale table for concrete evaluations. -/
def testLRScales : Q15_FastGRNN_LR_Scales :=
  ⟨0, 0, 0, 0, 0, 0, 0, 0, 0, 0, 0, 0, 0, 0, 0, 0, 0, 0, 0, 0, 0, 0, 0, 0, 0,
   0, 0, 0, 0, 0, 0, 0, 0, 0, 0, 0, 0, 0, 0, 0, 0, 0, 0, 0, 0, 0, 0, 0, 0,
   1, 1, 0, 1, 0, 0⟩

/-- All six low-rank scratch buffers present. -/
def testLRBuffersFull : Q15_FastGRNN_LR_Buffers :=
  ⟨some [], some [], some [], some [], some [], some []⟩

/-- Concrete mixed-precision parameters for concrete evaluations. -/
def testQ7Params : Q7xQ15_FastGRNN_Params :=
  ⟨[], [], [], none, none, [], none, none, [], [], 0, 0⟩

/-- All four mixed-precision scratch buffers present. -/
def testQ7BuffersFull : Q7xQ15_FastGRNN_Buffers :=
  ⟨some [], some [], some [], some []⟩

/-- Reading entry `i < n` of a vector built as a map over `List.range n`
yields the generating function at `i`. -/
theorem vget_range_map (n : Nat) (f : Nat → Int) (i : Nat) (h : i < n) :
    vget ((List.range n).map f) i = f i := by
  have hlen : i < ((List.range n).map f).length := by simpa using h
  rw [vget, List.getD_eq_getElem _ _ hlen]
  simp

/-- A list sum over `List.range n` is the corresponding `Finset.range` sum. -/
theorem list_range_map_sum (n : Nat) (f : Nat → Int) :
    ((List.range n).map f).sum = ∑ i ∈ Finset.range n, f i := by
  induction n with
  | zero => simp
  | succ k ih => simp [List.range_succ, Finset.sum_range_succ, ih]

/-- Folding two pointwise-equal functions over a list gives equal results. -/
theorem foldl_congr_fun {α β : Type} (f g : α → β → α) (l : List β) (a : α)
    (h : ∀ x y, f x y = g x y) : l.foldl f a = l.foldl g a := by
  induction l generalizing a with
  | nil => rfl
  | cons hd tl ih => simp only [List.foldl_cons, h, ih]

/-- The row dot product as a `Finset.range` sum. -/
theorem q15_dotRow_eq_sum (M x : List Int) (ncols i : Nat) :
    q15_dotRow M x ncols i = ∑ j ∈ Finset.range ncols, vget M (i * ncols + j) * vget x j := by
  unfold q15_dotRow
  exact list_range_map_sum _ _

/-- Claim C1: for every entry point (q15_fastgrnn, q15_fastgrnn_lr,
q7xq15_q15_fastgrnn) and every input, a call that returns a non-zero
(negative) result code leaves the hidden-state buffer unchanged: all
buffer-presence preconditions are checked before any mutation of the hidden
state, so a call either fully succeeds or makes no observable change. -/
theorem C1_fail_before_mutate :
    (∀ h hd x xd st p b sc sigT tanT bw nm,
      (q15_fastgrnn h hd x xd st p b sc sigT tanT bw nm).1 ≠ 0 →
      (q15_fastgrnn h hd x xd st p b sc sigT tanT bw nm).2 = h) ∧
    (∀ h hd x xd st p b sc sigT tanT bw nm,
      (q15_fastgrnn_lr h hd x xd st p b sc sigT tanT bw nm).1 ≠ 0 →
      (q15_fastgrnn_lr h hd x xd st p b sc sigT tanT bw nm).2 = h) ∧
    (∀ h hd x xd st p b sc sigT tanT bw nm,
      (q7xq15_q15_fastgrnn h hd x xd st p b sc sigT tanT bw nm).1 ≠ 0 →
      (q7xq15_q15_fastgrnn h hd x xd st p b sc sigT tanT bw nm).2 = h) := by
  refine ⟨?_, ?_, ?_⟩
  · intro h hd x xd st p b sc sigT tanT bw nm hcode
    obtain ⟨bb1, bb2, bb3, bbn⟩ := b
    cases bb1 <;> cases bb2 <;> cases bb3 <;> cases bbn <;> cases nm <;>
      simp_all [q15_fastgrnn]
  · intro h hd x xd st p b sc sigT tanT bw nm hcode
    obtain ⟨bb1, bb2, bb3, bb4, bb5, bbn⟩ := b
    cases bb1 <;> cases bb2 <;> cases bb3 <;> cases bb4 <;> cases bb5 <;> cases bbn <;>
      cases nm <;> simp_all [q15_fastgrnn_lr]
  · intro h hd x xd st p b sc sigT tanT bw nm hcode
    obtain ⟨bb1, bb2, bb3, bbn⟩ := b
    cases bb1 <;> cases bb2 <;> cases bb3 <;> cases bbn <;> cases nm <;>
      simp_all [q7xq15_q15_fastgrnn]

/-- Concrete instantiation of C1: each entry point called with a missing
buffer returns the untouched hidden state. -/
theorem C1_fail_before_mutate_witness :
    (q15_fastgrnn [5] 1 [] 1 0 testParams ⟨none, none, none, none⟩ testScales
      zeroTable zeroTable false false).2 = [5] ∧
    (q15_fastgrnn_lr [5] 1 [] 1 0 testLRParams ⟨none, none, none, none, none, none⟩
      testLRScales zeroTable zeroTable false false).2 = [5] ∧
    (q7xq15_q15_fastgrnn [5] 1 [] 1 0 testQ7Params ⟨none, none, none, none⟩ testScales
      zeroTable zeroTable false false).2 = [5] :=
  ⟨C1_fail_before_mutate.1 [5] 1 [] 1 0 testParams ⟨none, none, none, none⟩ testScales
      zeroTable zeroTable false false (by decide),
   C1_fail_before_mutate.2.1 [5] 1 [] 1 0 testLRParams ⟨none, none, none, none, none, none⟩
      testLRScales zeroTable zeroTable false false (by decide),
   C1_fail_before_mutate.2.2 [5] 1 [] 1 0 testQ7Params ⟨none, none, none, none⟩ testScales
      zeroTable zeroTable false false (by decide)⟩

/-- Claim C2 counterexample: the failure outcomes are not distinct for each
missing buffer - a call with only preComp1 missing, one with only preComp2
missing, and one with only preComp3 missing all return the same result code
ERR_PRECOMP_NOT_INIT, as documented in the header. -/
theorem C2_counterexample :
    (q15_fastgrnn_lr [0] 1 [0] 1 0 testLRParams ⟨none, some [], some [], some [], some [], some []⟩
      testLRScales zeroTable zeroTable false false).1 = ERR_PRECOMP_NOT_INIT ∧
    (q15_fastgrnn_lr [0] 1 [0] 1 0 testLRParams ⟨some [], none, some [], some [], some [], some []⟩
      testLRScales zeroTable zeroTable false false).1 = ERR_PRECOMP_NOT_INIT ∧
    (q15_fastgrnn_lr [0] 1 [0] 1 0 testLRParams ⟨some [], some [], none, some [], some [], some []⟩
      testLRScales zeroTable zeroTable false false).1 = ERR_PRECOMP_NOT_INIT := by
  decide

/-- Claim C2 (amended): the negative result codes of the low-rank entry point
distinguish which class of required buffer is missing - ERR_PRECOMP_NOT_INIT
for any of preComp1/2/3 (one shared code, not one per buffer),
ERR_TEMPLRW_NOT_INIT for tempLRW, ERR_TEMPLRU_NOT_INIT for tempLRU,
ERR_NORMFEATURES_NOT_INIT for normFeatures (checked only under normalize);
zero is returned exactly on success. -/
theorem C2_amended_result_codes :
    ∀ h hd x xd st p (b : Q15_FastGRNN_LR_Buffers) sc sigT tanT bw nm,
      ((q15_fastgrnn_lr h hd x xd st p b sc sigT tanT bw nm).1 = 0 ↔
        (b.preComp1.isSome = true ∧ b.preComp2.isSome = true ∧ b.preComp3.isSome = true ∧
         b.tempLRW.isSome = true ∧ b.tempLRU.isSome = true ∧
         (nm = true → b.normFeatures.isSome = true))) ∧
      ((q15_fastgrnn_lr h hd x xd st p b sc sigT tanT bw nm).1 = ERR_PRECOMP_NOT_INIT →
        (b.preComp1 = none ∨ b.preComp2 = none ∨ b.preComp3 = none)) ∧
      ((q15_fastgrnn_lr h hd x xd st p b sc sigT tanT bw nm).1 = ERR_TEMPLRW_NOT_INIT →
        b.tempLRW = none) ∧
      ((q15_fastgrnn_lr h hd x xd st p b sc sigT tanT bw nm).1 = ERR_TEMPLRU_NOT_INIT →
        b.tempLRU = none) ∧
      ((q15_fastgrnn_lr h hd x xd st p b sc sigT tanT bw nm).1 = ERR_NORMFEATURES_NOT_INIT →
        nm = true ∧ b.normFeatures = none) ∧
      ((q15_fastgrnn_lr h hd x xd st p b sc sigT tanT bw nm).1 = 0 ∨
       (q15_fastgrnn_lr h hd x xd st p b sc sigT tanT bw nm).1 = ERR_PRECOMP_NOT_INIT ∨
       (q15_fastgrnn_lr h hd x xd st p b sc sigT tanT bw nm).1 = ERR_TEMPLRW_NOT_INIT ∨
       (q15_fastgrnn_lr h hd x xd st p b sc sigT tanT bw nm).1 = ERR_TEMPLRU_NOT_INIT ∨
       (q15_fastgrnn_lr h hd x xd st p b sc sigT tanT bw nm).1 = ERR_NORMFEATURES_NOT_INIT) := by
  intro h hd x xd st p b sc sigT tanT bw nm
  obtain ⟨bb1, bb2, bb3, bb4, bb5, bbn⟩ := b
  cases bb1 <;> cases bb2 <;> cases bb3 <;> cases bb4 <;> cases bb5 <;> cases bbn <;> cases nm <;>
    simp only [q15_fastgrnn_lr, ERR_PRECOMP_NOT_INIT, ERR_TEMPLRW_NOT_INIT,
      ERR_TEMPLRU_NOT_INIT, ERR_NORMFEATURES_NOT_INIT, Option.isNone_none, Option.isNone_some,
      Option.isSome_none, Option.isSome_some, Bool.true_and, Bool.false_and, Bool.and_true,
      Bool.and_false, if_true, if_false, Bool.and_self, ite_true, ite_false] <;>
    norm_num

/-- Concrete instantiation of C2 (amended): with every buffer present the
low-rank entry point returns zero. -/
theorem C2_amended_result_codes_witness :
    (q15_fastgrnn_lr [0] 1 [0] 1 0 testLRParams testLRBuffersFull testLRScales
      zeroTable zeroTable false false).1 = 0 :=
  ((C2_amended_result_codes [0] 1 [0] 1 0 testLRParams testLRBuffersFull testLRScales
      zeroTable zeroTable false false).1).mpr (by decide)

/-- Claim C4: every entry point is deterministic - two calls with identical
hidden state, input, parameters, buffers, scales, lookup tables, step count
and flags return identical result codes and output hidden states. -/
theorem C4_determinism :
    (∀ (h₁ h₂ : List Int) (hd₁ hd₂ : Nat) (x₁ x₂ : List Int) (xd₁ xd₂ st₁ st₂ : Nat)
       (p₁ p₂ : Q15_FastGRNN_Params) (b₁ b₂ : Q15_FastGRNN_Buffers)
       (sc₁ sc₂ : Q15_FastGRNN_Scales) (sigT₁ sigT₂ tanT₁ tanT₂ : Int → Int)
       (bw₁ bw₂ nm₁ nm₂ : Bool),
      h₁ = h₂ → hd₁ = hd₂ → x₁ = x₂ → xd₁ = xd₂ → st₁ = st₂ → p₁ = p₂ → b₁ = b₂ →
      sc₁ = sc₂ → sigT₁ = sigT₂ → tanT₁ = tanT₂ → bw₁ = bw₂ → nm₁ = nm₂ →
      q15_fastgrnn h₁ hd₁ x₁ xd₁ st₁ p₁ b₁ sc₁ sigT₁ tanT₁ bw₁ nm₁ =
        q15_fastgrnn h₂ hd₂ x₂ xd₂ st₂ p₂ b₂ sc₂ sigT₂ tanT₂ bw₂ nm₂) ∧
    (∀ (h₁ h₂ : List Int) (hd₁ hd₂ : Nat) (x₁ x₂ : List Int) (xd₁ xd₂ st₁ st₂ : Nat)
       (p₁ p₂ : Q15_FastGRNN_LR_Params) (b₁ b₂ : Q15_FastGRNN_LR_Buffers)
       (sc₁ sc₂ : Q15_FastGRNN_LR_Scales) (sigT₁ sigT₂ tanT₁ tanT₂ : Int → Int)
       (bw₁ bw₂ nm₁ nm₂ : Bool),
      h₁ = h₂ → hd₁ = hd₂ → x₁ = x₂ → xd₁ = xd₂ → st₁ = st₂ → p₁ = p₂ → b₁ = b₂ →
      sc₁ = sc₂ → sigT₁ = sigT₂ → tanT₁ = tanT₂ → bw₁ = bw₂ → nm₁ = nm₂ →
      q15_fastgrnn_lr h₁ hd₁ x₁ xd₁ st₁ p₁ b₁ sc₁ sigT₁ tanT₁ bw₁ nm₁ =
        q15_fastgrnn_lr h₂ hd₂ x₂ xd₂ st₂ p₂ b₂ sc₂ sigT₂ tanT₂ bw₂ nm₂) ∧
    (∀ (h₁ h₂ : List Int) (hd₁ hd₂ : Nat) (x₁ x₂ : List Int) (xd₁ xd₂ st₁ st₂ : Nat)
       (p₁ p₂ : Q7xQ15_FastGRNN_Params) (b₁ b₂ : Q7xQ15_FastGRNN_Buffers)
       (sc₁ sc₂ : Q15_FastGRNN_Scales) (sigT₁ sigT₂ tanT₁ tanT₂ : Int → Int)
       (bw₁ bw₂ nm₁ nm₂ : Bool),
      h₁ = h₂ → hd₁ = hd₂ → x₁ = x₂ → xd₁ = xd₂ → st₁ = st₂ → p₁ = p₂ → b₁ = b₂ →
      sc₁ = sc₂ → sigT₁ = sigT₂ → tanT₁ = tanT₂ → bw₁ = bw₂ → nm₁ = nm₂ →
      q7xq15_q15_fastgrnn h₁ hd₁ x₁ xd₁ st₁ p₁ b₁ sc₁ sigT₁ tanT₁ bw₁ nm₁ =
        q7xq15_q15_fastgrnn h₂ hd₂ x₂ xd₂ st₂ p₂ b₂ sc₂ sigT₂ tanT₂ bw₂ nm₂) := by
  refine ⟨?_, ?_, ?_⟩ <;> · intros; subst_vars; rfl

/-- Concrete instantiation of C4 at one input for each entry point. -/
theorem C4_determinism_witness :
    q15_fastgrnn [1] 1 [2] 1 1 testParams testBuffersFull testScales zeroTable zeroTable
        false false =
      q15_fastgrnn [1] 1 [2] 1 1 testParams testBuffersFull testScales zeroTable zeroTable
        false false ∧
    q15_fastgrnn_lr [1] 1 [2] 1 1 testLRParams testLRBuffersFull testLRScales zeroTable
        zeroTable false false =
      q15_fastgrnn_lr [1] 1 [2] 1 1 testLRParams testLRBuffersFull testLRScales zeroTable
        zeroTable false false ∧
    q7xq15_q15_fastgrnn [1] 1 [2] 1 1 testQ7Params testQ7BuffersFull testScales zeroTable
        zeroTable false false =
      q7xq15_q15_fastgrnn [1] 1 [2] 1 1 testQ7Params testQ7BuffersFull testScales zeroTable
        zeroTable false false :=
  ⟨C4_determinism.1 [1] [1] 1 1 [2] [2] 1 1 1 1 testParams testParams testBuffersFull
      testBuffersFull testScales testScales zeroTable zeroTable zeroTable zeroTable
      false false false false rfl rfl rfl rfl rfl rfl rfl rfl rfl rfl rfl rfl,
   C4_determinism.2.1 [1] [1] 1 1 [2] [2] 1 1 1 1 testLRParams testLRParams testLRBuffersFull
      testLRBuffersFull testLRScales testLRScales zeroTable zeroTable zeroTable zeroTable
      false false false false rfl rfl rfl rfl rfl rfl rfl rfl rfl rfl rfl rfl,
   C4_determinism.2.2 [1] [1] 1 1 [2] [2] 1 1 1 1 testQ7Params testQ7Params testQ7BuffersFull
      testQ7BuffersFull testScales testScales zeroTable zeroTable zeroTable zeroTable
      false false false false rfl rfl rfl rfl rfl rfl rfl rfl rfl rfl rfl rfl⟩

/-- Claim C5: a call with steps == 0 is a no-op for every entry point - it
returns 0 and leaves the hidden state unchanged, for every configuration of
the remaining arguments that passes the buffer checks. -/
theorem C5_zero_steps_noop :
    (∀ h hd x xd p (b : Q15_FastGRNN_Buffers) sc sigT tanT bw nm,
      b.preComp1.isSome = true → b.preComp2.isSome = true → b.preComp3.isSome = true →
      (nm = true → b.normFeatures.isSome = true) →
      q15_fastgrnn h hd x xd 0 p b sc sigT tanT bw nm = (0, h)) ∧
    (∀ h hd x xd p (b : Q15_FastGRNN_LR_Buffers) sc sigT tanT bw nm,
      b.preComp1.isSome = true → b.preComp2.isSome = true → b.preComp3.isSome = true →
      b.tempLRW.isSome = true → b.tempLRU.isSome = true →
      (nm = true → b.normFeatures.isSome = true) →
      q15_fastgrnn_lr h hd x xd 0 p b sc sigT tanT bw nm = (0, h)) ∧
    (∀ h hd x xd p (b : Q7xQ15_FastGRNN_Buffers) sc sigT tanT bw nm,
      b.preComp1.isSome = true → b.preComp2.isSome = true → b.preComp3.isSome = true →
      (nm = true → b.normFeatures.isSome = true) →
      q7xq15_q15_fastgrnn h hd x xd 0 p b sc sigT tanT bw nm = (0, h)) := by
  refine ⟨?_, ?_, ?_⟩
  · intro h hd x xd p b sc sigT tanT bw nm h1 h2 h3 h4
    obtain ⟨bb1, bb2, bb3, bbn⟩ := b
    cases bb1 <;> cases bb2 <;> cases bb3 <;> cases bbn <;> cases nm <;>
      simp_all [q15_fastgrnn, q15_fastgrnn_loop]
  · intro h hd x xd p b sc sigT tanT bw nm h1 h2 h3 h4 h5 h6
    obtain ⟨bb1, bb2, bb3, bb4, bb5, bbn⟩ := b
    cases bb1 <;> cases bb2 <;> cases bb3 <;> cases bb4 <;> cases bb5 <;> cases bbn <;>
      cases nm <;> simp_all [q15_fastgrnn_lr, q15_fastgrnn_lr_loop]
  · intro h hd x xd p b sc sigT tanT bw nm h1 h2 h3 h4
    obtain ⟨bb1, bb2, bb3, bbn⟩ := b
    cases bb1 <;> cases bb2 <;> cases bb3 <;> cases bbn <;> cases nm <;>
      simp_all [q7xq15_q15_fastgrnn, q15_fastgrnn_loop]

/-- Concrete instantiation of C5 at each entry point with all buffers
present and steps = 0. -/
theorem C5_zero_steps_noop_witness :
    q15_fastgrnn [3] 1 [7] 1 0 testParams testBuffersFull testScales zeroTable zeroTable
      false false = (0, [3]) ∧
    q15_fastgrnn_lr [3] 1 [7] 1 0 testLRParams testLRBuffersFull testLRScales zeroTable
      zeroTable false false = (0, [3]) ∧
    q7xq15_q15_fastgrnn [3] 1 [7] 1 0 testQ7Params testQ7BuffersFull testScales zeroTable
      zeroTable false false = (0, [3]) :=
  ⟨C5_zero_steps_noop.1 [3] 1 [7] 1 testParams testBuffersFull testScales zeroTable zeroTable
      false false (by decide) (by decide) (by decide) (by decide),
   C5_zero_steps_noop.2.1 [3] 1 [7] 1 testLRParams testLRBuffersFull testLRScales zeroTable
      zeroTable false false (by decide) (by decide) (by decide) (by decide) (by decide)
      (by decide),
   C5_zero_steps_noop.2.2 [3] 1 [7] 1 testQ7Params testQ7BuffersFull testScales zeroTable
      zeroTable false false (by decide) (by decide) (by decide) (by decide)⟩

/-- Claim C6: buffer validation is conditional on the selected configuration -
preComp1/2/3 must be non-null for every entry point; tempLRW and tempLRU are
checked (only) by the low-rank entry point; and with normalize == 0 the
normalization buffer is neither checked nor consumed: a call with
normFeatures == NULL behaves identically to one with it present and
succeeds when the preComp buffers are present, while with normalize == 1 a
missing normFeatures fails with ERR_NORMFEATURES_NOT_INIT. -/
theorem C6_conditional_validation :
    (∀ h hd x xd st p (b : Q15_FastGRNN_Buffers) sc sigT tanT bw nm,
      (b.preComp1 = none ∨ b.preComp2 = none ∨ b.preComp3 = none) →
      (q15_fastgrnn h hd x xd st p b sc sigT tanT bw nm).1 = ERR_PRECOMP_NOT_INIT) ∧
    (∀ h hd x xd st p (b : Q15_FastGRNN_LR_Buffers) sc sigT tanT bw nm,
      (b.preComp1 = none ∨ b.preComp2 = none ∨ b.preComp3 = none) →
      (q15_fastgrnn_lr h hd x xd st p b sc sigT tanT bw nm).1 = ERR_PRECOMP_NOT_INIT) ∧
    (∀ h hd x xd st p (b : Q7xQ15_FastGRNN_Buffers) sc sigT tanT bw nm,
      (b.preComp1 = none ∨ b.preComp2 = none ∨ b.preComp3 = none) →
      (q7xq15_q15_fastgrnn h hd x xd st p b sc sigT tanT bw nm).1 = ERR_PRECOMP_NOT_INIT) ∧
    (∀ h hd x xd st p (b : Q15_FastGRNN_LR_Buffers) sc sigT tanT bw nm,
      b.preComp1.isSome = true → b.preComp2.isSome = true → b.preComp3.isSome = true →
      b.tempLRW = none →
      (q15_fastgrnn_lr h hd x xd st p b sc sigT tanT bw nm).1 = ERR_TEMPLRW_NOT_INIT) ∧
    (∀ h hd x xd st p (b : Q15_FastGRNN_LR_Buffers) sc sigT tanT bw nm,
      b.preComp1.isSome = true → b.preComp2.isSome = true → b.preComp3.isSome = true →
      b.tempLRW.isSome = true → b.tempLRU = none →
      (q15_fastgrnn_lr h hd x xd st p b sc sigT tanT bw nm).1 = ERR_TEMPLRU_NOT_INIT) ∧
    (∀ h hd x xd st p bb1 bb2 bb3 nf sc sigT tanT bw,
      q15_fastgrnn h hd x xd st p ⟨bb1, bb2, bb3, nf⟩ sc sigT tanT bw false =
        q15_fastgrnn h hd x xd st p ⟨bb1, bb2, bb3, none⟩ sc sigT tanT bw false) ∧
    (∀ h hd x xd st p bb1 bb2 bb3 sc sigT tanT bw,
      bb1.isSome = true → bb2.isSome = true → bb3.isSome = true →
      (q15_fastgrnn h hd x xd st p ⟨bb1, bb2, bb3, none⟩ sc sigT tanT bw false).1 = 0 ∧
      (q15_fastgrnn h hd x xd st p ⟨bb1, bb2, bb3, none⟩ sc sigT tanT bw true).1 =
        ERR_NORMFEATURES_NOT_INIT) := by
  refine ⟨?_, ?_, ?_, ?_, ?_, ?_, ?_⟩
  · intro h hd x xd st p b sc sigT tanT bw nm hnone
    obtain ⟨bb1, bb2, bb3, bbn⟩ := b
    cases bb1 <;> cases bb2 <;> cases bb3 <;> cases bbn <;> cases nm <;>
      simp_all [q15_fastgrnn]
  · intro h hd x xd st p b sc sigT tanT bw nm hnone
    obtain ⟨bb1, bb2, bb3, bb4, bb5, bbn⟩ := b
    cases bb1 <;> cases bb2 <;> cases bb3 <;> cases bb4 <;> cases bb5 <;> cases bbn <;>
      cases nm <;> simp_all [q15_fastgrnn_lr]
  · intro h hd x xd st p b sc sigT tanT bw nm hnone
    obtain ⟨bb1, bb2, bb3, bbn⟩ := b
    cases bb1 <;> cases bb2 <;> cases bb3 <;> cases bbn <;> cases nm <;>
      simp_all [q7xq15_q15_fastgrnn]
  · intro h hd x xd st p b sc sigT tanT bw nm h1 h2 h3 h4
    obtain ⟨bb1, bb2, bb3, bb4, bb5, bbn⟩ := b
    cases bb1 <;> cases bb2 <;> cases bb3 <;> cases bb4 <;> cases bb5 <;> cases bbn <;>
      cases nm <;> simp_all [q15_fastgrnn_lr]
  · intro h hd x xd st p b sc sigT tanT bw nm h1 h2 h3 h4 h5
    obtain ⟨bb1, bb2, bb3, bb4, bb5, bbn⟩ := b
    cases bb1 <;> cases bb2 <;> cases bb3 <;> cases bb4 <;> cases bb5 <;> cases bbn <;>
      cases nm <;> simp_all [q15_fastgrnn_lr]
  · intro h hd x xd st p bb1 bb2 bb3 nf sc sigT tanT bw
    cases bb1 <;> cases bb2 <;> cases bb3 <;> cases nf <;> simp [q15_fastgrnn]
  · intro h hd x xd st p bb1 bb2 bb3 sc sigT tanT bw h1 h2 h3
    cases bb1 <;> cases bb2 <;> cases bb3 <;> simp_all [q15_fastgrnn]

/-- Concrete instantiation of C6: with normalize off and normFeatures NULL
the dense entry point succeeds, and with normalize on it fails with the
normalization-buffer code. -/
theorem C6_conditional_validation_witness :
    (q15_fastgrnn [4] 1 [6] 1 0 testParams ⟨some [], some [], some [], none⟩ testScales
      zeroTable zeroTable false false).1 = 0 ∧
    (q15_fastgrnn [4] 1 [6] 1 0 testParams ⟨some [], some [], some [], none⟩ testScales
      zeroTable zeroTable false true).1 = ERR_NORMFEATURES_NOT_INIT :=
  C6_conditional_validation.2.2.2.2.2.2 [4] 1 [6] 1 0 testParams (some []) (some [])
    (some []) testScales zeroTable zeroTable false (by decide) (by decide) (by decide)

/-- Claim C9: the computed sigmoid and tanh approximators saturate - for
every argument outside [-sigmoidLimit, sigmoidLimit] the output clamps to
the corresponding extreme fixed-point output of the nonlinearity (0 or qOne
for the sigmoid, -limit or limit for the tanh) instead of wrapping around
the integer range. -/
theorem C9_saturation_clamp (d a limit qone x : Int) (hl : 0 < limit) :
    (limit < x →
      q15_sigmoid_computed d a limit qone x = qone ∧ q15_tanh_computed limit x = limit) ∧
    (x < -limit →
      q15_sigmoid_computed d a limit qone x = 0 ∧ q15_tanh_computed limit x = -limit) := by
  constructor
  · intro hx
    have h1 : ¬ x ≤ -limit := by omega
    have h2 : limit ≤ x := le_of_lt hx
    simp [q15_sigmoid_computed, q15_tanh_computed, h1, h2]
  · intro hx
    have h1 : x ≤ -limit := le_of_lt hx
    simp [q15_sigmoid_computed, q15_tanh_computed, h1]

/-- Concrete instantiation of C9 on both sides of the saturation limit. -/
theorem C9_saturation_clamp_witness :
    q15_sigmoid_computed 1 0 8 16384 100 = 16384 ∧ q15_tanh_computed 8 100 = 8 ∧
    q15_sigmoid_computed 1 0 8 16384 (-100) = 0 ∧ q15_tanh_computed 8 (-100) = -8 :=
  ⟨((C9_saturation_clamp 1 0 8 16384 100 (by decide)).1 (by decide)).1,
   ((C9_saturation_clamp 1 0 8 16384 100 (by decide)).1 (by decide)).2,
   ((C9_saturation_clamp 1 0 8 16384 (-100) (by decide)).2 (by decide)).1,
   ((C9_saturation_clamp 1 0 8 16384 (-100) (by decide)).2 (by decide)).2⟩

/-- Claim C10: no entry point writes to the input array, the model parameters
or the scale table - in the machine-state view of a call, those three
regions (declared const in the header) are identical after the call for
every result code; only the hidden state (and scratch) components differ. -/
theorem C10_const_frame :
    (∀ s hd xd st sigT tanT bw nm,
      (q15_fastgrnn_call s hd xd st sigT tanT bw nm).2.input = s.input ∧
      (q15_fastgrnn_call s hd xd st sigT tanT bw nm).2.params = s.params ∧
      (q15_fastgrnn_call s hd xd st sigT tanT bw nm).2.scales = s.scales) ∧
    (∀ s hd xd st sigT tanT bw nm,
      (q15_fastgrnn_lr_call s hd xd st sigT tanT bw nm).2.input = s.input ∧
      (q15_fastgrnn_lr_call s hd xd st sigT tanT bw nm).2.params = s.params ∧
      (q15_fastgrnn_lr_call s hd xd st sigT tanT bw nm).2.scales = s.scales) ∧
    (∀ s hd xd st sigT tanT bw nm,
      (q7xq15_q15_fastgrnn_call s hd xd st sigT tanT bw nm).2.input = s.input ∧
      (q7xq15_q15_fastgrnn_call s hd xd st sigT tanT bw nm).2.params = s.params ∧
      (q7xq15_q15_fastgrnn_call s hd xd st sigT tanT bw nm).2.scales = s.scales) := by
  refine ⟨?_, ?_, ?_⟩ <;> · intro s hd xd st sigT tanT bw nm; exact ⟨rfl, rfl, rfl⟩

/-- Claim C3: the call iterates the per-step update over the time steps, and
for every time step and every hidden unit the new hidden state written back
equals the fixed-point blend new_h = gate * old_h + (zeta * (1 - gate) + nu)
* candidate, where gate is the sigmoid output and candidate the tanh output
for that unit, with every multiply and add scale-aligned per the scale-table
fields and the result demoted to the declared hidden-state output scale. -/
theorem C3_blend_formula :
    (∀ h hd x xd st p (b : Q15_FastGRNN_Buffers) sc sigT tanT bw nm,
      b.preComp1.isSome = true → b.preComp2.isSome = true → b.preComp3.isSome = true →
      (nm = true → b.normFeatures.isSome = true) →
      q15_fastgrnn h hd x xd st p b sc sigT tanT bw nm =
        (0, q15_fastgrnn_loop hd xd st p sc sigT tanT bw nm x h)) ∧
    (∀ (hd xd : Nat) (p : Q15_FastGRNN_Params) (sc : Q15_FastGRNN_Scales)
       (sigT tanT : Int → Int) (nm : Bool) (t : Nat) (x h : List Int) (i : Nat),
      i < hd →
      vget (q15_fastgrnn_step hd xd p sc sigT tanT nm t x h) i =
        shr (shr
          (shr (shr (vget (q15_fastgrnn_gate hd xd p sc sigT nm t x h) i * vget h i)
              (sc.gateHDHiddenState + sc.hiddenStateHDGate)) sc.pC3AddPC1 +
           shr (shr
              (shr
                (shr p.sigmoid_nu sc.sigmoidNu +
                 shr (shr (p.sigmoid_zeta *
                       shr (shr sc.qOne sc.qOneScale -
                            shr (vget (q15_fastgrnn_gate hd xd p sc sigT nm t x h) i)
                              sc.qOneSubGate) sc.qOneSubGateOut)
                     (sc.sigmoidZeta + sc.sigmoidZetaMulQOneSubGate))
                   sc.sigmoidNuAddQOneSubGate)
                sc.sigmoidNuAddQOneSubGateOut *
               vget (q15_fastgrnn_candidate hd xd p sc tanT nm t x h) i)
              (sc.sigmoidNuAddQOneSubGateHDUpdate + sc.updateHDSigmoidNuAddQOneSubGate))
             sc.pC1AddPC3)
          sc.hiddenStateOut) sc.hiddenStateDemote) := by
  constructor
  · intro h hd x xd st p b sc sigT tanT bw nm h1 h2 h3 h4
    obtain ⟨bb1, bb2, bb3, bbn⟩ := b
    cases bb1 <;> cases bb2 <;> cases bb3 <;> cases bbn <;> cases nm <;>
      simp_all [q15_fastgrnn]
  · intro hd xd p sc sigT tanT nm t x h i hi
    simp only [q15_fastgrnn_step, q15_v_add, q15_v_hadamard, q15_v_scalar_add,
      q15_v_scalar_mul, q15_v_scalar_sub, vget_range_map, hi]

/-- Concrete instantiation of C3: the call unfolds to the step loop, and the
step's first hidden unit equals the scale-aligned blend. -/
theorem C3_blend_formula_witness :
    q15_fastgrnn [2] 1 [3] 1 1 testParams testBuffersFull testScales zeroTable zeroTable
        false false =
      (0, q15_fastgrnn_loop 1 1 1 testParams testScales zeroTable zeroTable false false
        [3] [2]) ∧
    vget (q15_fastgrnn_step 1 1 testParams testScales zeroTable zeroTable false 0 [3] [2]) 0 =
      shr (shr
        (shr (shr (vget (q15_fastgrnn_gate 1 1 testParams testScales zeroTable false 0 [3] [2]) 0
            * vget [2] 0)
            (testScales.gateHDHiddenState + testScales.hiddenStateHDGate)) testScales.pC3AddPC1 +
         shr (shr
            (shr
              (shr testParams.sigmoid_nu testScales.sigmoidNu +
               shr (shr (testParams.sigmoid_zeta *
                     shr (shr testScales.qOne testScales.qOneScale -
                          shr (vget (q15_fastgrnn_gate 1 1 testParams testScales zeroTable
                              false 0 [3] [2]) 0)
                            testScales.qOneSubGate) testScales.qOneSubGateOut)
                   (testScales.sigmoidZeta + testScales.sigmoidZetaMulQOneSubGate))
                 testScales.sigmoidNuAddQOneSubGate)
              testScales.sigmoidNuAddQOneSubGateOut *
             vget (q15_fastgrnn_candidate 1 1 testParams testScales zeroTable false 0 [3] [2]) 0)
            (testScales.sigmoidNuAddQOneSubGateHDUpdate +
              testScales.updateHDSigmoidNuAddQOneSubGate))
           testScales.pC1AddPC3)
        testScales.hiddenStateOut) testScales.hiddenStateDemote :=
  ⟨C3_blend_formula.1 [2] 1 [3] 1 1 testParams testBuffersFull testScales zeroTable zeroTable
      false false (by decide) (by decide) (by decide) (by decide),
   C3_blend_formula.2 1 1 testParams testScales zeroTable zeroTable false 0 [3] [2] 0
      (by decide)⟩

/-- Claim C7 counterexample: a dense 1x1 matrix [6] factored exactly as
[3,3] * [1,1] (rank 2) with consistent scales (dense demote 1 = intermediate
demote 1 + output demote 0) makes the low-rank path return 0 where the dense
path returns 3 - a deviation of 3 units, not at most one. -/
theorem C7_counterexample :
    vget [6] 0 = vget [3, 3] 0 * vget [1, 1] 0 + vget [3, 3] 1 * vget [1, 1] 1 ∧
    (0 + 0 + 1 : Nat) = 0 + 0 + 1 + (0 + 0 + 0) ∧
    ¬ |vget (q15_lr_mulvec [1, 1] [3, 3] [1] 1 2 1 0 0 1 0 0 0) 0 -
        vget (q15_m_mulvec [6] [1] 1 1 0 0 1) 0| ≤ 1 := by
  decide

/-- Claim C7 (amended): the low-rank path coincides with the dense path
exactly (hence within one unit) whenever the factorization is exact and the
intermediate demotion is lossless - each rank-stage row sum divisible by the
intermediate scale's power of two - with the dense demotion equal to the sum
of the two low-rank demotions; with a lossy intermediate demotion the
deviation can exceed one unit (see the counterexample). -/
theorem C7_lowrank_dense_exact (Mfst Msnd M x : List Int) (n r c : Nat)
    (a1 b1 c1 a2 b2 c2 ad bd cd : Nat)
    (hsc : ad + bd + cd = a1 + b1 + c1 + (a2 + b2 + c2))
    (hM : ∀ i ∈ Finset.range n, ∀ j ∈ Finset.range c,
      vget M (i * c + j) = ∑ k ∈ Finset.range r, vget Msnd (i * r + k) * vget Mfst (k * c + j))
    (hdiv : ∀ k ∈ Finset.range r, q15_dotRow Mfst x c k % (2 : Int) ^ (a1 + b1 + c1) = 0) :
    q15_lr_mulvec Mfst Msnd x n r c a1 b1 c1 a2 b2 c2 = q15_m_mulvec M x n c ad bd cd := by
  unfold q15_lr_mulvec q15_m_mulvec
  apply List.map_congr_left
  intro i hiR
  have hi : i < n := List.mem_range.mp hiR
  have houter : q15_dotRow Msnd
      ((List.range r).map fun k0 => shr (q15_dotRow Mfst x c k0) (a1 + b1 + c1)) r i =
      ∑ k ∈ Finset.range r,
        vget Msnd (i * r + k) * shr (q15_dotRow Mfst x c k) (a1 + b1 + c1) := by
    rw [q15_dotRow_eq_sum]
    exact Finset.sum_congr rfl fun k hk => by
      rw [vget_range_map _ _ _ (Finset.mem_range.mp hk)]
  have hdense : q15_dotRow M x c i =
      ∑ k ∈ Finset.range r, vget Msnd (i * r + k) * q15_dotRow Mfst x c k := by
    rw [q15_dotRow_eq_sum]
    calc ∑ j ∈ Finset.range c, vget M (i * c + j) * vget x j
        = ∑ j ∈ Finset.range c,
            (∑ k ∈ Finset.range r, vget Msnd (i * r + k) * vget Mfst (k * c + j)) * vget x j :=
          Finset.sum_congr rfl fun j hj => by rw [hM i (Finset.mem_range.mpr hi) j hj]
      _ = ∑ j ∈ Finset.range c, ∑ k ∈ Finset.range r,
            vget Msnd (i * r + k) * vget Mfst (k * c + j) * vget x j :=
          Finset.sum_congr rfl fun j hj => Finset.sum_mul _ _ _
      _ = ∑ k ∈ Finset.range r, ∑ j ∈ Finset.range c,
            vget Msnd (i * r + k) * vget Mfst (k * c + j) * vget x j := Finset.sum_comm
      _ = ∑ k ∈ Finset.range r, vget Msnd (i * r + k) *
            ∑ j ∈ Finset.range c, vget Mfst (k * c + j) * vget x j := by
          refine Finset.sum_congr rfl fun k hk => ?_
          rw [Finset.mul_sum]
          exact Finset.sum_congr rfl fun j hj => by ring
      _ = ∑ k ∈ Finset.range r, vget Msnd (i * r + k) * q15_dotRow Mfst x c k :=
          Finset.sum_congr rfl fun k hk => by rw [q15_dotRow_eq_sum]
  have hsum : ∑ k ∈ Finset.range r, vget Msnd (i * r + k) * q15_dotRow Mfst x c k =
      (2 : Int) ^ (a1 + b1 + c1) *
        ∑ k ∈ Finset.range r,
          vget Msnd (i * r + k) * shr (q15_dotRow Mfst x c k) (a1 + b1 + c1) := by
    rw [Finset.mul_sum]
    refine Finset.sum_congr rfl fun k hk => ?_
    have hdk : (2 : Int) ^ (a1 + b1 + c1) ∣ q15_dotRow Mfst x c k :=
      Int.dvd_of_emod_eq_zero (hdiv k hk)
    simp only [shr]
    conv_lhs => rw [← Int.mul_ediv_cancel' hdk]
    ring
  rw [houter, hdense, hsum, hsc]
  unfold shr
  rw [show ((2 : Int) ^ (a1 + b1 + c1 + (a2 + b2 + c2))) =
        2 ^ (a1 + b1 + c1) * 2 ^ (a2 + b2 + c2) from pow_add 2 _ _,
    Int.mul_ediv_mul_of_pos _ _ (by positivity)]

/-- Concrete instantiation of C7 (amended): with x = [2] the intermediate
sums are even, the demotion by 2^1 is lossless, and the low-rank and dense
outputs coincide. -/
theorem C7_lowrank_dense_exact_witness :
    q15_lr_mulvec [1, 1] [3, 3] [2] 1 2 1 0 0 1 0 0 0 = q15_m_mulvec [6] [2] 1 1 0 0 1 :=
  C7_lowrank_dense_exact [1, 1] [3, 3] [6] [2] 1 2 1 0 0 1 0 0 0 0 0 1
    (by decide) (by decide) (by decide)

/-- Every canonical sparse entry of row `i0` carries row index `i0`. -/
theorem mem_sparseRowEntries_row (M : List Int) (ncols i0 : Nat) (e : (Nat × Nat) × Int)
    (he : e ∈ sparseRowEntries M ncols i0) : e.1.1 = i0 := by
  unfold sparseRowEntries at he
  rw [List.mem_filterMap] at he
  obtain ⟨j, hj, hee⟩ := he
  by_cases hz : vget M (i0 * ncols + j) = 0
  · rw [if_pos hz] at hee
    cases hee
  · rw [if_neg hz] at hee
    obtain rfl := Option.some.inj hee
    rfl

/-- Filtering the canonical entries of row `i0` by row index `i` keeps all of
them when `i0 = i` and none otherwise. -/
theorem sparseRowEntries_filter_eq (M : List Int) (ncols i i0 : Nat) :
    (sparseRowEntries M ncols i0).filter (fun e => e.1.1 == i) =
      if i0 = i then sparseRowEntries M ncols i0 else [] := by
  by_cases hii : i0 = i
  · rw [if_pos hii]
    apply List.filter_eq_self.mpr
    intro e he
    have hr := mem_sparseRowEntries_row M ncols i0 e he
    simp [hr, hii]
  · rw [if_neg hii]
    apply List.filter_eq_nil_iff.mpr
    intro e he
    have hr := mem_sparseRowEntries_row M ncols i0 e he
    simp [hr, hii]

/-- Accumulating a row's canonical sparse entries against the input vector
gives exactly the dense row dot product: listed zero-valued entries would
contribute nothing and omitted entries are zero. -/
theorem sparseRowEntries_map_sum (M x : List Int) (ncols i : Nat) :
    ((sparseRowEntries M ncols i).map fun e => e.2 * vget x e.1.2).sum =
      q15_dotRow M x ncols i := by
  unfold sparseRowEntries q15_dotRow
  generalize List.range ncols = l
  induction l with
  | nil => rfl
  | cons j0 jt ih =>
    by_cases hz : vget M (i * ncols + j0) = 0
    · simp [List.filterMap_cons, hz, ih]
    · simp [List.filterMap_cons, hz, ih]

/-- Filter-map-sum distributes over a flattened list of rows. -/
theorem flatten_filter_map_sum (rows : List (List ((Nat × Nat) × Int)))
    (p : (Nat × Nat) × Int → Bool) (f : (Nat × Nat) × Int → Int) :
    ((rows.flatten.filter p).map f).sum =
      (rows.map fun row => ((row.filter p).map f).sum).sum := by
  induction rows with
  | nil => rfl
  | cons r0 rt ih =>
    simp only [List.flatten_cons, List.filter_append, List.map_append, List.sum_append,
      List.map_cons, List.sum_cons, ih]

/-- The sparse multiply agrees exactly with the dense multiply whenever the
index/value arrays are a permutation of the canonical listing of the dense
matrix's nonzero entries. -/
theorem sparse_dense_mulvec (M : List Int) (ids : List (Nat × Nat)) (vals x : List Int)
    (nrows ncols sm sv sr : Nat)
    (hrep : (ids.zip vals).Perm (sparseEntries M nrows ncols)) :
    q15_m_sparse_mulvec ids vals x nrows sm sv sr =
      q15_m_mulvec M x nrows ncols sm sv sr := by
  unfold q15_m_sparse_mulvec q15_m_mulvec
  apply List.map_congr_left
  intro i hiR
  have hi : i < nrows := List.mem_range.mp hiR
  congr 1
  have h1 := (hrep.filter (fun e => e.1.1 == i)).map (fun e => e.2 * vget x e.1.2)
  rw [h1.sum_eq]
  unfold sparseEntries
  rw [flatten_filter_map_sum, List.map_map]
  have h2 : ∀ i0 ∈ List.range nrows,
      ((fun row => ((row.filter (fun e => e.1.1 == i)).map fun e => e.2 * vget x e.1.2).sum) ∘
        sparseRowEntries M ncols) i0 =
      (fun i0 => if i0 = i then q15_dotRow M x ncols i0 else 0) i0 := by
    intro i0 _
    simp only [Function.comp]
    rw [sparseRowEntries_filter_eq]
    by_cases hii : i0 = i
    · rw [if_pos hii, if_pos hii, sparseRowEntries_map_sum]
    · rw [if_neg hii, if_neg hii]
      rfl
  rw [List.map_congr_left h2, list_range_map_sum, Finset.sum_ite_eq']
  simp [hi]

/-- Claim C8: when the index/value arrays list exactly the nonzero entries of
a dense matrix W, a call through the sparse path produces output hidden
states equal to the dense path's output (here with dense U in the same call,
exhibiting that sparse W may be mixed with dense U); and NULL index arrays
select dense-mode operation for that matrix field. -/
theorem C8_sparse_dense_equiv :
    (∀ (h0 : List Int) (hd : Nat) (input : List Int) (xd st : Nat)
       (p : Q15_FastGRNN_Params) (ids : List (Nat × Nat)) (vals M : List Int)
       (b : Q15_FastGRNN_Buffers) (sc : Q15_FastGRNN_Scales) (sigT tanT : Int → Int)
       (bw nm : Bool),
      p.Wids = some ids → p.Wvals = some vals →
      (ids.zip vals).Perm (sparseEntries M hd xd) → p.Uids = none →
      q15_fastgrnn h0 hd input xd st p b sc sigT tanT bw nm =
        q15_fastgrnn h0 hd input xd st { p with W := M, Wids := none, Wvals := none }
          b sc sigT tanT bw nm) ∧
    (∀ (p : Q15_FastGRNN_Params) (feats : List Int) (hd xd : Nat) (sc : Q15_FastGRNN_Scales),
      p.Wids = none →
      q15_projW p feats hd xd sc =
        q15_m_mulvec p.W feats hd xd sc.w sc.normFeaturesMVW sc.mVWOut) ∧
    (∀ (p : Q15_FastGRNN_Params) (hv : List Int) (hd : Nat) (sc : Q15_FastGRNN_Scales),
      p.Uids = none →
      q15_projU p hv hd sc =
        q15_m_mulvec p.U hv hd hd sc.u sc.hiddenStateMVU sc.mVUOut) := by
  refine ⟨?_, ?_, ?_⟩
  · intro h0 hd input xd st p ids vals M b sc sigT tanT bw nm hids hvals hrep huids
    have hW : ∀ feats, q15_projW p feats hd xd sc =
        q15_projW { p with W := M, Wids := none, Wvals := none } feats hd xd sc := by
      intro feats
      have hsd := sparse_dense_mulvec M ids vals feats hd xd sc.w sc.normFeaturesMVW
        sc.mVWOut hrep
      simp [q15_projW, hids, hvals, hsd]
    have hU : ∀ hv, q15_projU p hv hd sc =
        q15_projU { p with W := M, Wids := none, Wvals := none } hv hd sc := by
      intro hv
      cases hUv : p.Uvals <;> simp [q15_projU, huids, hUv]
    have hstep : ∀ t xs hs, q15_fastgrnn_step hd xd p sc sigT tanT nm t xs hs =
        q15_fastgrnn_step hd xd { p with W := M, Wids := none, Wvals := none }
          sc sigT tanT nm t xs hs := by
      intro t xs hs
      simp only [q15_fastgrnn_step, q15_fastgrnn_gate, q15_fastgrnn_candidate,
        q15_fastgrnn_preAct, q15_fastgrnn_features, hW, hU]
    have hloop : q15_fastgrnn_loop hd xd st p sc sigT tanT bw nm input h0 =
        q15_fastgrnn_loop hd xd st { p with W := M, Wids := none, Wvals := none }
          sc sigT tanT bw nm input h0 := by
      unfold q15_fastgrnn_loop
      exact foldl_congr_fun _ _ _ _ (fun hs tt => by rw [hstep])
    obtain ⟨bb1, bb2, bb3, bbn⟩ := b
    cases bb1 <;> cases bb2 <;> cases bb3 <;> cases bbn <;> cases nm <;>
      simp_all [q15_fastgrnn]
  · intro p feats hd xd sc hids
    cases hv : p.Wvals <;> simp [q15_projW, hids, hv]
  · intro p hv hd sc huids
    cases hUv : p.Uvals <;> simp [q15_projU, huids, hUv]

/-- Concrete instantiation of C8: a sparse 1x1 W given by its single nonzero
entry, mixed with a dense U, matches the all-dense call. -/
theorem C8_sparse_dense_equiv_witness :
    q15_fastgrnn [1] 1 [1] 1 1 testSparseParams testBuffersFull testScales zeroTable
        zeroTable false false =
      q15_fastgrnn [1] 1 [1] 1 1 { testSparseParams with W := [2], Wids := none, Wvals := none }
        testBuffersFull testScales zeroTable zeroTable false false :=
  C8_sparse_dense_equiv.1 [1] 1 [1] 1 1 testSparseParams [(0, 0)] [2] [2] testBuffersFull
    testScales zeroTable zeroTable false false (by decide) (by decide) (by decide) (by decide)

end QFastGRNN
